import Mathlib

/-!
Verification of the nRF24L01 driver core (`src/lib/nrf24l01/nrf24_driver.c`)
against its natural-language specification.  The C driver is shallowly
embedded: machine bytes become `Nat` (with explicit truncation where the C
code truncates), the chip's register file becomes a function from register
address to the list of bytes last written there, and SPI transfers that can
fail are given their outcome as an explicit `Bool` parameter, mirroring the
value the C code receives from `spi_manager_transfer`.
-/

namespace Nrf24

/-! ### Status codes

`fn_status_t` values, as documented throughout `nrf24_driver.c`:
ERROR (0), PIN_MNGR_OK (1), SPI_MNGR_OK (2), NRF_MNGR_OK (3). -/

def ERROR : Nat := 0

def PIN_MNGR_OK : Nat := 1

def SPI_MNGR_OK : Nat := 2

def NRF_MNGR_OK : Nat := 3

/-- Values of `fn_status_irq_t` (`error_manager.h`): NONE_ASSERTED (0). -/
def NONE_ASSERTED : Nat := 0

def RX_DR_ASSERTED : Nat := 1

def TX_DS_ASSERTED : Nat := 2

def MAX_RT_ASSERTED : Nat := 3

/-! ### Register map (`device_config.h`) -/

def CONFIG : Nat := 0x00

def EN_AA : Nat := 0x01

def EN_RXADDR : Nat := 0x02

def SETUP_AW : Nat := 0x03

def SETUP_RETR : Nat := 0x04

def RF_CH : Nat := 0x05

def RF_SETUP : Nat := 0x06

def STATUS : Nat := 0x07

def RX_ADDR_P0 : Nat := 0x0A

def RX_ADDR_P1 : Nat := 0x0B

def RX_ADDR_P2 : Nat := 0x0C

def RX_ADDR_P3 : Nat := 0x0D

def RX_ADDR_P4 : Nat := 0x0E

def RX_ADDR_P5 : Nat := 0x0F

def TX_ADDR : Nat := 0x10

def RX_PW_P0 : Nat := 0x11

def DYNPD : Nat := 0x1C

/-- Modelled from the spec: the FEATURE register (dynamic-payload feature
bits) is referenced by `nrf_driver_initialise` but its address is not
declared in the headers under `src/`; the datasheet address is 0x1D. -/
def FEATURE : Nat := 0x1D

/-! ### SPI opcodes (`device_config.h`) -/

def R_RX_PL_WID : Nat := 0x60

def R_RX_PAYLOAD : Nat := 0x61

def W_TX_PAYLOAD : Nat := 0xA0

def FLUSH_TX : Nat := 0xE1

def FLUSH_RX : Nat := 0xE2

/-! ### Bit positions and masks (`device_config.h`) -/

def SET_BIT : Nat := 1

def CONFIG_PRIM_RX : Nat := 0

def STATUS_RX_P_NO : Nat := 1

def STATUS_MAX_RT : Nat := 4

def STATUS_TX_DS : Nat := 5

def STATUS_RX_DR : Nat := 6

def STATUS_RX_P_NO_MASK : Nat := 0x07

def STATUS_INTERRUPT_MASK : Nat := 0x70

def ENAA_ALL : Nat := 0x3F

/-- Modelled from the spec: FEATURE register EN_DPL bit position (bit 2,
per the datasheet); the enumerator is not declared in the headers under
`src/`. Its exact value does not affect any claim. -/
def FEATURE_EN_DPL : Nat := 2

/-- Modelled from the spec: FEATURE register EN_DYN_ACK bit position
(bit 0, per the datasheet); not declared in the headers under `src/`. -/
def FEATURE_EN_DYN_ACK : Nat := 0

/-! ### Configuration enumerators (`device_config.h`) -/

def AW_3_BYTES : Nat := 1

def AW_4_BYTES : Nat := 2

def AW_5_BYTES : Nat := 3

def ARD_250US : Nat := 0x00

def ARD_500US : Nat := 0x10

def ARD_750US : Nat := 0x20

def ARD_1000US : Nat := 0x30

def ARC_15RT : Nat := 0x0F

def RF_DR_1MBPS : Nat := 0x00

def RF_DR_2MBPS : Nat := 0x08

def RF_DR_250KBPS : Nat := 0x20

def RF_PWR_NEG_18DBM : Nat := 0

def RF_PWR_0DBM : Nat := 6

/-- Modelled from the spec: DYNPD register value enabling dynamic payloads
on all pipes (0x3F). The enumerator is used by the driver but not declared
in the headers under `src/`; `nrf_driver_read_packet` branches on the
truthiness of `dyn_payloads`, so the enable value is nonzero. -/
def DYNPD_ENABLE : Nat := 0x3F

/-- Modelled from the spec: DYNPD register value disabling dynamic
payloads (0x00, falsy, matching the truthiness test in
`nrf_driver_read_packet`). -/
def DYNPD_DISABLE : Nat := 0x00

def ONE_BYTE : Nat := 1

def FIVE_BYTES : Nat := 5

def MAX_BYTES : Nat := 32

def ALL_DATA_PIPES : Nat := 6

/-! ### Configuration record (`nrf_manager_t`)

The struct is referenced by `nrf24_driver.c`; its fields (all byte-sized
settings) are exactly the seven read by `validate_config` and
`nrf_driver_initialise`. -/

structure nrf_manager_t where
  address_width : Nat
  dyn_payloads : Nat
  retr_delay : Nat
  retr_count : Nat
  data_rate : Nat
  power : Nat
  channel : Nat
deriving DecidableEq, Repr

/-- Embedding of `validate_config` (nrf24_driver.c:1066-1129): counts the valid members
of the configuration and accepts iff all seven checks pass.  The C `for`
loops over the RF-power values (0,2,4,6) and retransmit-delay values
(0,16,32,48) increment the counter once per matching value, i.e. once iff
the field equals one of the listed values. -/
def validate_config (c : nrf_manager_t) : Nat :=
  let v1 : Nat := if AW_3_BYTES ≤ c.address_width ∧ c.address_width ≤ AW_5_BYTES then 1 else 0
  let v2 : Nat := if 2 ≤ c.channel ∧ c.channel ≤ 125 then 1 else 0
  let v3 : Nat := if c.data_rate = RF_DR_1MBPS ∨ c.data_rate = RF_DR_2MBPS ∨ c.data_rate = RF_DR_250KBPS then 1 else 0
  let v4 : Nat := if c.dyn_payloads = DYNPD_ENABLE ∨ c.dyn_payloads = DYNPD_DISABLE then 1 else 0
  let v5 : Nat := if c.power = 0 ∨ c.power = 2 ∨ c.power = 4 ∨ c.power = 6 then 1 else 0
  let v6 : Nat := if c.retr_count ≤ ARC_15RT then 1 else 0
  let v7 : Nat := if c.retr_delay = 0 ∨ c.retr_delay = 16 ∨ c.retr_delay = 32 ∨ c.retr_delay = 48 then 1 else 0
  if v1 + v2 + v3 + v4 + v5 + v6 + v7 = 7 then NRF_MNGR_OK else ERROR

/-! ### Driver state (`nrf_driver_t`)

The chip's register file is modelled driver-side as the bytes last written
to each register address.  SPI transfers that the code checks for failure
receive their outcome as an explicit `Bool` argument; where a definition
takes no such argument the transfer outcome does not influence the
property being verified and the transfer is taken to succeed. -/

inductive device_mode_t where
  | STANDBY_I
  | STANDBY_II
  | TX_MODE
  | RX_MODE
deriving DecidableEq, Repr

structure nrf_driver_t where
  regs : Nat → List Nat
  user_config : nrf_manager_t
  address_width_bytes : Nat
  mode : device_mode_t
  is_rx_addr_p0 : Bool
  rx_addr_p0 : List Nat

/-- Effect of `w_register` on the register file: the register holds the bytes
written (the SPI header framing `(REGISTER_MASK & reg) | W_REGISTER` keeps
the 5-bit register address, so registers are keyed by address). -/
def w_reg (st : nrf_driver_t) (reg : Nat) (data : List Nat) : nrf_driver_t :=
  { st with regs := fun r => if r = reg then data else st.regs r }

/-- Effect of `r_register_byte`: the first byte held in the register. -/
def r_reg_byte (st : nrf_driver_t) (reg : Nat) : Nat :=
  (st.regs reg).headD 0

/-- Effects of one `check_status_irq` call (nrf24_driver.c:1347-1395):
the classification returned, the sequence of write-1-to-clear values
written to the STATUS register, whether the TX FIFO was flushed, and the
pipe number stored through `rx_p_no` when the pointer is non-null. -/
structure irq_effect_t where
  asserted : Nat
  writes : List Nat
  tx_flush : Bool
  rx_p_no : Option Nat
deriving DecidableEq, Repr

/-- Embedding of `check_status_irq` (nrf24_driver.c:1347-1395) on a STATUS byte: tests
RX_DR, TX_DS, MAX_RT in that order, each set bit is cleared individually
by writing 1 back, `asserted_bit` is overwritten in source order (so the
last test, MAX_RT, has the highest priority), and a set MAX_RT flushes the
TX FIFO. -/
def check_status_irq (status : Nat) : irq_effect_t :=
  let rx_dr := (status >>> STATUS_RX_DR) &&& 1
  let tx_ds := (status >>> STATUS_TX_DS) &&& 1
  let max_rt := (status >>> STATUS_MAX_RT) &&& 1
  let e0 : irq_effect_t := ⟨NONE_ASSERTED, [], false, none⟩
  let e1 := if rx_dr ≠ 0 then
      { e0 with asserted := RX_DR_ASSERTED,
                writes := e0.writes ++ [SET_BIT <<< STATUS_RX_DR],
                rx_p_no := some ((status >>> STATUS_RX_P_NO) &&& STATUS_RX_P_NO_MASK) }
    else e0
  let e2 := if tx_ds ≠ 0 then
      { e1 with asserted := TX_DS_ASSERTED,
                writes := e1.writes ++ [SET_BIT <<< STATUS_TX_DS] }
    else e1
  if max_rt ≠ 0 then
    { e2 with asserted := MAX_RT_ASSERTED,
              writes := e2.writes ++ [SET_BIT <<< STATUS_MAX_RT],
              tx_flush := true }
  else e2

/-! ### Packet transmission (`nrf_driver_send_packet`, nrf24_driver.c:779-849)

The chip's successive STATUS register values are supplied as a list (one
entry per `check_status_irq` poll); an empty remainder models a chip that
never asserts an interrupt, in which case the C loop never exits and the
model returns `none`. -/

/-- The `while` polling loop of `nrf_driver_send_packet`
(nrf24_driver.c:825-835), started at the poll the C code performs before
entering the loop: returns the number of `check_status_irq` polls consumed
and the final classification, or `none` when no STATUS value in the stream
ever asserts an interrupt (the C loop would spin forever). -/
def send_poll : List Nat → Option (Nat × Nat)
  | [] => none
  | s :: rest =>
    let irq := (check_status_irq s).asserted
    if irq = NONE_ASSERTED then
      match send_poll rest with
      | none => none
      | some (n, i) => some (n + 1, i)
    else some (1, irq)

/-- Return value of `nrf_driver_send_packet` (nrf24_driver.c:779-849).
`spiOk` is the outcome of the `spi_manager_transfer` that ships the
payload; `statuses` the successive STATUS bytes read by the polls.  One
`check_status_irq` call always happens before the loop; the loop keeps
polling only while the transfer succeeded and nothing is asserted;
finally the function maps `TX_DS_ASSERTED` to `NRF_MNGR_OK` and every
other classification to `ERROR`. -/
def send_packet_status (spiOk : Bool) (statuses : List Nat) : Option Nat :=
  match statuses with
  | [] => none
  | s0 :: rest =>
    let irq0 := (check_status_irq s0).asserted
    if spiOk = true ∧ irq0 = NONE_ASSERTED then
      (send_poll rest).map (fun r => if r.2 = TX_DS_ASSERTED then NRF_MNGR_OK else ERROR)
    else
      some (if irq0 = TX_DS_ASSERTED then NRF_MNGR_OK else ERROR)

/-- Register-file effect of one `check_status_irq` call: each
write-1-to-clear value is written to the STATUS register in turn. -/
def apply_irq_writes (st : nrf_driver_t) (s : Nat) : nrf_driver_t :=
  (check_status_irq s).writes.foldl (fun acc v => w_reg acc STATUS [v]) st

/-- Register-file effect of the polling loop of `nrf_driver_send_packet`:
`check_status_irq` keeps clearing asserted bits until one poll asserts. -/
def apply_polls (st : nrf_driver_t) : List Nat → nrf_driver_t
  | [] => st
  | s :: rest =>
    let st1 := apply_irq_writes st s
    if (check_status_irq s).asserted = NONE_ASSERTED then apply_polls st1 rest else st1

/-- Embedding of `nrf_driver_standby_mode` (nrf24_driver.c:732-763): when in RX mode,
clears the CONFIG PRIM_RX bit and returns to Standby-I. -/
def nrf_driver_standby_mode (st : nrf_driver_t) : nrf_driver_t :=
  if st.mode = device_mode_t.RX_MODE then
    let config := r_reg_byte st CONFIG
    let config := config &&& (255 - (SET_BIT <<< CONFIG_PRIM_RX))
    let st := w_reg st CONFIG [config]
    { st with mode := device_mode_t.STANDBY_I }
  else st

/-- State effect of `nrf_driver_send_packet` (nrf24_driver.c:779-849): a
possible drop to standby, the payload transfer (which touches no
configuration register), the mode excursion TX_MODE → STANDBY_I, and the
STATUS-clearing polls.  The pipe-0 address cache, the cache flag and the
address width are never touched. -/
def send_packet_state (st : nrf_driver_t) (spiOk : Bool) (statuses : List Nat) : nrf_driver_t :=
  let st := nrf_driver_standby_mode st
  let st := { st with mode := device_mode_t.STANDBY_I }
  if spiOk then apply_polls st statuses
  else
    match statuses with
    | [] => st
    | s :: _ => apply_irq_writes st s

/-! ### Address & pipe manager -/

/-- The receive-address register for a data pipe
(`registers[6]` in `nrf_driver_rx_destination`). -/
def rx_addr_reg (pipe : Nat) : Nat := RX_ADDR_P0 + pipe

/-- Embedding of `nrf_driver_rx_destination` (nrf24_driver.c:364-413): for pipe 0 the
address is cached (`memcpy` of `address_width_bytes` bytes into the 5-byte
cache) and the cache flag set; pipes 0-1 get the full configured address
width written to their register, pipes 2-5 exactly `ONE_BYTE`; finally the
pipe is enabled in EN_RXADDR when not already enabled.  Register-write
transfers are taken to succeed. -/
def nrf_driver_rx_destination (st : nrf_driver_t) (pipe : Nat) (buffer : List Nat) : nrf_driver_t × Nat :=
  let st :=
    if pipe = 0 then
      { st with is_rx_addr_p0 := true,
                rx_addr_p0 := buffer.take st.address_width_bytes
                  ++ st.rx_addr_p0.drop st.address_width_bytes }
    else st
  if pipe < ALL_DATA_PIPES then
    let st :=
      if pipe < 2 then w_reg st (rx_addr_reg pipe) (buffer.take st.address_width_bytes)
      else w_reg st (rx_addr_reg pipe) (buffer.take ONE_BYTE)
    let status := SPI_MNGR_OK
    let en_rxaddr := r_reg_byte st EN_RXADDR
    if (en_rxaddr >>> pipe) &&& 1 ≠ SET_BIT then
      (w_reg st EN_RXADDR [en_rxaddr ||| (SET_BIT <<< pipe)], status)
    else (st, status)
  else (st, ERROR)

/-- Embedding of `nrf_driver_tx_destination` (nrf24_driver.c:324-348): writes the
address (at the configured width) to RX_ADDR_P0 and then TX_ADDR, without
touching the pipe-0 cache. -/
def nrf_driver_tx_destination (st : nrf_driver_t) (buffer : List Nat) : nrf_driver_t :=
  let st := w_reg st RX_ADDR_P0 (buffer.take st.address_width_bytes)
  w_reg st TX_ADDR (buffer.take st.address_width_bytes)

/-- Embedding of `nrf_driver_receiver_mode` (nrf24_driver.c:969-1010): sets the CONFIG
PRIM_RX bit when unset, restores the cached pipe-0 address when the cache
flag is set, and enters RX mode. -/
def nrf_driver_receiver_mode (st : nrf_driver_t) : nrf_driver_t × Nat :=
  let config := r_reg_byte st CONFIG
  let prim_rx := (config >>> CONFIG_PRIM_RX) &&& 1
  let (st, status) :=
    if prim_rx ≠ SET_BIT then
      (w_reg st CONFIG [config ||| (SET_BIT <<< CONFIG_PRIM_RX)], SPI_MNGR_OK)
    else (st, NRF_MNGR_OK)
  let st :=
    if st.is_rx_addr_p0 then
      w_reg st RX_ADDR_P0 (st.rx_addr_p0.take st.address_width_bytes)
    else st
  ({ st with mode := device_mode_t.RX_MODE }, status)

/-- One transmit-cycle operation interposed between the pipe-0 assignment
and the re-entry into receive mode: a `nrf_driver_send_packet` call (with
its SPI outcome and STATUS stream) or a `nrf_driver_tx_destination` call
(which overwrites the pipe-0 address register for auto-acknowledgment). -/
inductive tx_op_t where
  | send (spiOk : Bool) (statuses : List Nat)
  | tx_dest (buffer : List Nat)

def apply_tx_op (st : nrf_driver_t) : tx_op_t → nrf_driver_t
  | tx_op_t.send spiOk statuses => send_packet_state st spiOk statuses
  | tx_op_t.tx_dest buffer => nrf_driver_tx_destination st buffer

/-! ### Payload size, RF channel, packet read -/

/-- Embedding of `nrf_driver_payload_size` (nrf24_driver.c:429-466): accepts sizes in
(ZERO_BYTES, MAX_BYTES] and writes the size byte to the pipe's RX_PW
register (all six for ALL_DATA_PIPES).  Register-write transfers are taken
to succeed. -/
def nrf_driver_payload_size (st : nrf_driver_t) (pipe : Nat) (size : Nat) : nrf_driver_t × Nat :=
  let status := if 0 < size ∧ size ≤ MAX_BYTES then NRF_MNGR_OK else ERROR
  if status = NRF_MNGR_OK then
    if pipe = ALL_DATA_PIPES then
      ((List.range ALL_DATA_PIPES).foldl (fun acc i => w_reg acc (RX_PW_P0 + i) [size % 256]) st,
        SPI_MNGR_OK)
    else (w_reg st (RX_PW_P0 + pipe) [size % 256], SPI_MNGR_OK)
  else (st, status)

/-- Embedding of `nrf_driver_rf_channel` (nrf24_driver.c:553-570): validates the
channel, writes it to RF_CH (`writeOk` is the transfer outcome; a failed
transfer leaves the register as it was), and updates the cached
configuration's channel only when the write returned SPI_MNGR_OK. -/
def nrf_driver_rf_channel (st : nrf_driver_t) (channel : Nat) (writeOk : Bool) : nrf_driver_t × Nat :=
  let status := if 2 ≤ channel ∧ channel ≤ 125 then NRF_MNGR_OK else ERROR
  if status = NRF_MNGR_OK then
    let status := if writeOk then SPI_MNGR_OK else ERROR
    let st := if writeOk then w_reg st RF_CH [channel] else st
    let st :=
      { st with user_config :=
          { st.user_config with channel :=
              if status = SPI_MNGR_OK then channel else st.user_config.channel } }
    (st, status)
  else (st, status)

/-- Observable outcome of `nrf_driver_read_packet`: the SPI opcodes issued
in order, the returned status, and whether the caller's buffer was
written. -/
structure read_result_t where
  opcodes : List Nat
  status : Nat
  wrote_buffer : Bool
deriving DecidableEq, Repr

/-- Embedding of `nrf_driver_read_packet` (nrf24_driver.c:861-925): when dynamic
payloads are enabled the R_RX_PL_WID query is issued first and
`reported_width` is the width byte the chip returns; a width above
MAX_BYTES flushes the RX FIFO and returns ERROR before any payload read;
otherwise the R_RX_PAYLOAD read proceeds and fills the caller's buffer.
SPI transfers are taken to succeed. -/
def nrf_driver_read_packet (dyn_payloads : Nat) (reported_width : Nat) : read_result_t :=
  if dyn_payloads ≠ 0 then
    if reported_width > MAX_BYTES then
      ⟨[R_RX_PL_WID, FLUSH_RX], ERROR, false⟩
    else ⟨[R_RX_PL_WID, R_RX_PAYLOAD], SPI_MNGR_OK, true⟩
  else ⟨[R_RX_PAYLOAD], SPI_MNGR_OK, true⟩

/-! ### Initialisation (`nrf_driver_initialise`, nrf24_driver.c:199-303) -/

/-- One observable bus action during initialisation: a register write, the
5ms crystal-oscillator startup wait issued after the CONFIG write, or a
FIFO flush command. -/
inductive init_event_t where
  | wreg (reg : Nat) (val : Nat)
  | sleep_osc
  | flush_tx
  | flush_rx
deriving DecidableEq, Repr

/-- The `register_list[9]` array of `nrf_driver_initialise` (nrf24_driver.c:244-281):
the nine register/value pairs the function prepares, ending with the
STATUS interrupt-clearing write. -/
def register_list (c : nrf_manager_t) : List (Nat × Nat) :=
  [ (CONFIG, 0x0E),
    (EN_AA, ENAA_ALL),
    (SETUP_AW, c.address_width),
    (SETUP_RETR, c.retr_count ||| c.retr_delay),
    (RF_CH, c.channel),
    (RF_SETUP, c.data_rate ||| c.power),
    (FEATURE, (SET_BIT <<< FEATURE_EN_DPL) ||| (SET_BIT <<< FEATURE_EN_DYN_ACK)),
    (DYNPD, c.dyn_payloads),
    (STATUS, STATUS_INTERRUPT_MASK) ]

/-- The write loop of `nrf_driver_initialise` (nrf24_driver.c:284-292)
over a list of register/value pairs: each iteration writes one pair
(`ok i` is the outcome of the i-th transfer), sleeps 5ms after the CONFIG
write, and breaks on the first failed write; returns the bus events and
the final status. -/
def init_writes (ok : Nat → Bool) : List (Nat × Nat) → Nat → Nat → List init_event_t × Nat
  | [], _, s => ([], s)
  | (reg, val) :: rest, i, _ =>
    let s := if ok i then SPI_MNGR_OK else ERROR
    let evs :=
      if reg = CONFIG then [init_event_t.wreg reg val, init_event_t.sleep_osc]
      else [init_event_t.wreg reg val]
    if s = ERROR then (evs, ERROR)
    else
      let r := init_writes ok rest (i + 1) s
      (evs ++ r.1, r.2)

/-- Embedding of `nrf_driver_initialise` (nrf24_driver.c:199-303): validates the
configuration, then loops `for (i = 0; i < 8; i++)` over the 9-entry
`register_list` — so only the first eight entries are ever written — and
finally flushes both FIFOs.  Returns the ordered bus events and the final
status. -/
def nrf_driver_initialise (c : nrf_manager_t) (ok : Nat → Bool) : List init_event_t × Nat :=
  let status := validate_config c
  if status = NRF_MNGR_OK then
    let r := init_writes ok ((register_list c).take 8) 0 status
    (r.1 ++ [init_event_t.flush_tx, init_event_t.flush_rx], r.2)
  else ([], status)

/-- The driver state produced by the global initialiser of `nrf_driver`
(nrf24_driver.c:68-82): default configuration, 5-byte address width, no
pipe-0 address cached, Standby-I. -/
def init_state : nrf_driver_t :=
  { regs := fun _ => [],
    user_config := ⟨AW_5_BYTES, DYNPD_DISABLE, ARD_500US, 0x0A, RF_DR_1MBPS, RF_PWR_0DBM, 110⟩,
    address_width_bytes := FIVE_BYTES,
    mode := device_mode_t.STANDBY_I,
    is_rx_addr_p0 := false,
    rx_addr_p0 := [0, 0, 0, 0, 0] }

/-! ## Theorems -/

/-- C5: for every configuration record, `validate_config` returns
NRF_MNGR_OK iff all seven field checks pass (address-width encoding in
{AW_3_BYTES..AW_5_BYTES}, channel in [2,125], data rate one of the three
legal encodings, dynamic-payload flag a legal enumerator, tx power one of
the four legal encodings, retransmit count ≤ 15, retransmit delay one of
the four quantized values); any single failing field rejects the whole
configuration. -/
theorem validate_config_ok_iff (c : nrf_manager_t) :
    validate_config c = NRF_MNGR_OK ↔
      ((AW_3_BYTES ≤ c.address_width ∧ c.address_width ≤ AW_5_BYTES) ∧
       (2 ≤ c.channel ∧ c.channel ≤ 125) ∧
       (c.data_rate = RF_DR_1MBPS ∨ c.data_rate = RF_DR_2MBPS ∨ c.data_rate = RF_DR_250KBPS) ∧
       (c.dyn_payloads = DYNPD_ENABLE ∨ c.dyn_payloads = DYNPD_DISABLE) ∧
       (c.power = RF_PWR_NEG_18DBM ∨ c.power = 2 ∨ c.power = 4 ∨ c.power = RF_PWR_0DBM) ∧
       c.retr_count ≤ ARC_15RT ∧
       (c.retr_delay = ARD_250US ∨ c.retr_delay = ARD_500US ∨
        c.retr_delay = ARD_750US ∨ c.retr_delay = ARD_1000US)) := by
  have e : ∀ (P : Prop) [Decidable P], ((if P then (1 : Nat) else 0) = 1 ↔ P) ∧ (if P then (1 : Nat) else 0) ≤ 1 := by
    intro P inst
    refine ⟨⟨fun h => ?_, fun h => by simp [h]⟩, by split <;> omega⟩
    by_contra hP
    simp [hP] at h
  obtain ⟨e1, b1⟩ := e (AW_3_BYTES ≤ c.address_width ∧ c.address_width ≤ AW_5_BYTES)
  obtain ⟨e2, b2⟩ := e (2 ≤ c.channel ∧ c.channel ≤ 125)
  obtain ⟨e3, b3⟩ := e (c.data_rate = RF_DR_1MBPS ∨ c.data_rate = RF_DR_2MBPS ∨ c.data_rate = RF_DR_250KBPS)
  obtain ⟨e4, b4⟩ := e (c.dyn_payloads = DYNPD_ENABLE ∨ c.dyn_payloads = DYNPD_DISABLE)
  obtain ⟨e5, b5⟩ := e (c.power = 0 ∨ c.power = 2 ∨ c.power = 4 ∨ c.power = 6)
  obtain ⟨e6, b6⟩ := e (c.retr_count ≤ ARC_15RT)
  obtain ⟨e7, b7⟩ := e (c.retr_delay = 0 ∨ c.retr_delay = 16 ∨ c.retr_delay = 32 ∨ c.retr_delay = 48)
  simp only [validate_config]
  constructor
  · intro h
    have hsum : (if AW_3_BYTES ≤ c.address_width ∧ c.address_width ≤ AW_5_BYTES then (1 : Nat) else 0) +
        (if 2 ≤ c.channel ∧ c.channel ≤ 125 then (1 : Nat) else 0) +
        (if c.data_rate = RF_DR_1MBPS ∨ c.data_rate = RF_DR_2MBPS ∨ c.data_rate = RF_DR_250KBPS then (1 : Nat) else 0) +
        (if c.dyn_payloads = DYNPD_ENABLE ∨ c.dyn_payloads = DYNPD_DISABLE then (1 : Nat) else 0) +
        (if c.power = 0 ∨ c.power = 2 ∨ c.power = 4 ∨ c.power = 6 then (1 : Nat) else 0) +
        (if c.retr_count ≤ ARC_15RT then (1 : Nat) else 0) +
        (if c.retr_delay = 0 ∨ c.retr_delay = 16 ∨ c.retr_delay = 32 ∨ c.retr_delay = 48 then (1 : Nat) else 0) = 7 := by
      by_contra hne
      rw [if_neg hne] at h
      simp [ERROR, NRF_MNGR_OK] at h
    exact ⟨e1.mp (by omega), e2.mp (by omega), e3.mp (by omega), e4.mp (by omega),
      by simpa [RF_PWR_NEG_18DBM, RF_PWR_0DBM] using e5.mp (by omega), e6.mp (by omega),
      by simpa [ARD_250US, ARD_500US, ARD_750US, ARD_1000US] using e7.mp (by omega)⟩
  · rintro ⟨p1, p2, p3, p4, p5, p6, p7⟩
    have q1 := e1.mpr p1
    have q2 := e2.mpr p2
    have q3 := e3.mpr p3
    have q4 := e4.mpr p4
    have q5 := e5.mpr (by simpa [RF_PWR_NEG_18DBM, RF_PWR_0DBM] using p5)
    have q6 := e6.mpr p6
    have q7 := e7.mpr (by simpa [ARD_250US, ARD_500US, ARD_750US, ARD_1000US] using p7)
    rw [if_pos (by omega)]

/-- C9: for every STATUS byte with more than one of the three interrupt
bits set, `check_status_irq` writes an individual write-1-to-clear value
back for each set bit (in RX_DR, TX_DS, MAX_RT order), returns the single
classification of highest priority MAX_RT > TX_DS > RX_DR, and flushes
the TX FIFO exactly when MAX_RT is set. -/
theorem check_status_irq_priority (s : Nat)
    (h : 2 ≤ ((s >>> STATUS_RX_DR) &&& 1) + ((s >>> STATUS_TX_DS) &&& 1)
          + ((s >>> STATUS_MAX_RT) &&& 1)) :
    (check_status_irq s).writes =
      ((if (s >>> STATUS_RX_DR) &&& 1 = 1 then [SET_BIT <<< STATUS_RX_DR] else []) ++
       (if (s >>> STATUS_TX_DS) &&& 1 = 1 then [SET_BIT <<< STATUS_TX_DS] else []) ++
       (if (s >>> STATUS_MAX_RT) &&& 1 = 1 then [SET_BIT <<< STATUS_MAX_RT] else [])) ∧
    (check_status_irq s).asserted =
      (if (s >>> STATUS_MAX_RT) &&& 1 = 1 then MAX_RT_ASSERTED
       else if (s >>> STATUS_TX_DS) &&& 1 = 1 then TX_DS_ASSERTED
       else RX_DR_ASSERTED) ∧
    ((check_status_irq s).tx_flush ↔ (s >>> STATUS_MAX_RT) &&& 1 = 1) := by
  have ha : (s >>> STATUS_RX_DR) &&& 1 = 0 ∨ (s >>> STATUS_RX_DR) &&& 1 = 1 := by
    have := Nat.and_one_is_mod (s >>> STATUS_RX_DR)
    omega
  have hb : (s >>> STATUS_TX_DS) &&& 1 = 0 ∨ (s >>> STATUS_TX_DS) &&& 1 = 1 := by
    have := Nat.and_one_is_mod (s >>> STATUS_TX_DS)
    omega
  have hc : (s >>> STATUS_MAX_RT) &&& 1 = 0 ∨ (s >>> STATUS_MAX_RT) &&& 1 = 1 := by
    have := Nat.and_one_is_mod (s >>> STATUS_MAX_RT)
    omega
  rcases ha with ha | ha <;> rcases hb with hb | hb <;> rcases hc with hc | hc <;>
    simp_all [check_status_irq]

/-- C9 witness: STATUS byte 0x70 has all three interrupt bits set; the
classifier clears each individually, reports MAX_RT and flushes TX. -/
theorem check_status_irq_priority_witness :
    (check_status_irq 0x70).writes =
      ((if ((0x70 : Nat) >>> STATUS_RX_DR) &&& 1 = 1 then [SET_BIT <<< STATUS_RX_DR] else []) ++
       (if ((0x70 : Nat) >>> STATUS_TX_DS) &&& 1 = 1 then [SET_BIT <<< STATUS_TX_DS] else []) ++
       (if ((0x70 : Nat) >>> STATUS_MAX_RT) &&& 1 = 1 then [SET_BIT <<< STATUS_MAX_RT] else [])) ∧
    (check_status_irq 0x70).asserted =
      (if ((0x70 : Nat) >>> STATUS_MAX_RT) &&& 1 = 1 then MAX_RT_ASSERTED
       else if ((0x70 : Nat) >>> STATUS_TX_DS) &&& 1 = 1 then TX_DS_ASSERTED
       else RX_DR_ASSERTED) ∧
    ((check_status_irq 0x70).tx_flush ↔ ((0x70 : Nat) >>> STATUS_MAX_RT) &&& 1 = 1) :=
  check_status_irq_priority 0x70 (by decide)

/-- C2 counterexample: a run whose payload SPI transfer fails (transport
error, STATUS idle) and a run whose transfer succeeds but exhausts the
retransmit budget (MAX_RT asserted) return the very same value ERROR (0),
so the RetriesExhausted outcome is not distinguishable from a transport
failure — refuting the claim that no two of the three outcomes map to the
same returned value. -/
theorem send_outcomes_collide :
    send_packet_status false [0x00] = send_packet_status true [SET_BIT <<< STATUS_MAX_RT] ∧
    send_packet_status false [0x00] = some ERROR ∧
    send_packet_status true [SET_BIT <<< STATUS_MAX_RT] = some ERROR ∧
    send_packet_status true [SET_BIT <<< STATUS_TX_DS] = some NRF_MNGR_OK := by
  decide

/-- C2 (amended): `nrf_driver_send_packet` returns a two-way outcome —
NRF_MNGR_OK exactly when the final poll classified TX_DS, and ERROR for
everything else, so an acknowledged transmission is distinguishable from
the other outcomes but retries-exhausted and a transport failure both map
to ERROR. -/
theorem send_packet_two_outcomes (spiOk : Bool) (ss : List Nat) (r : Nat)
    (h : send_packet_status spiOk ss = some r) :
    r = NRF_MNGR_OK ∨ r = ERROR := by
  cases ss with
  | nil => simp [send_packet_status] at h
  | cons s0 rest =>
    simp only [send_packet_status] at h
    split at h
    · cases hp : send_poll rest with
      | none => rw [hp] at h; simp at h
      | some p =>
        rw [hp] at h
        simp only [Option.map_some', Option.some.injEq] at h
        split at h
        · exact Or.inl h.symm
        · exact Or.inr h.symm
    · simp only [Option.some.injEq] at h
      split at h
      · exact Or.inl h.symm
      · exact Or.inr h.symm

/-- C2 witness: an acknowledged run returns NRF_MNGR_OK, which is one of
the two possible outcomes. -/
theorem send_packet_two_outcomes_witness :
    NRF_MNGR_OK = NRF_MNGR_OK ∨ NRF_MNGR_OK = ERROR :=
  send_packet_two_outcomes true [SET_BIT <<< STATUS_TX_DS] NRF_MNGR_OK (by decide)

/-- C3 counterexample: with STATUS stream [RX_DR only, TX_DS], the
polling loop stops at the very first poll — in which only the
data-received bit is set — and never reaches the data-sent poll,
refuting the claim that a data-received-only poll does not by itself
terminate the loop. -/
theorem send_poll_rx_dr_terminates :
    send_poll [SET_BIT <<< STATUS_RX_DR, SET_BIT <<< STATUS_TX_DS] = some (1, RX_DR_ASSERTED) ∧
    send_poll [SET_BIT <<< STATUS_RX_DR, SET_BIT <<< STATUS_TX_DS] ≠ some (2, TX_DS_ASSERTED) := by
  decide

/-- C3 (amended): the polling loop terminates at the first poll in which
ANY of the three interrupt bits (data-received, data-sent, max-retries)
is observed: whenever it returns, the polls before the last all
classified NONE_ASSERTED and the last poll's classification — which may
be RX_DR_ASSERTED alone — is the result.  A data-received-only poll
therefore also ends the loop. -/
theorem send_poll_first_assertion (ss : List Nat) (n i : Nat)
    (h : send_poll ss = some (n, i)) :
    ∃ pre s post, ss = pre ++ s :: post ∧ n = pre.length + 1 ∧
      (∀ x ∈ pre, (check_status_irq x).asserted = NONE_ASSERTED) ∧
      (check_status_irq s).asserted = i ∧ i ≠ NONE_ASSERTED := by
  induction ss generalizing n with
  | nil => simp [send_poll] at h
  | cons s0 rest ih =>
    simp only [send_poll] at h
    split at h
    · cases hp : send_poll rest with
      | none => rw [hp] at h; simp at h
      | some p =>
        rw [hp] at h
        simp only [Option.some.injEq, Prod.mk.injEq] at h
        obtain ⟨hn0, hi0⟩ := h
        have hp' : send_poll rest = some (p.1, i) := by rw [hp, ← hi0]
        obtain ⟨pre, s, post, hss, hn, hpre, hs, hi⟩ := ih p.1 hp'
        refine ⟨s0 :: pre, s, post, ?_, ?_, ?_, hs, hi⟩
        · rw [hss]
          rfl
        · simp only [List.length_cons]
          omega
        · intro x hx
          rcases List.mem_cons.mp hx with hx | hx
          · subst hx
            assumption
          · exact hpre x hx
    · simp only [Option.some.injEq, Prod.mk.injEq] at h
      obtain ⟨hn1, hi1⟩ := h
      refine ⟨[], s0, rest, rfl, by simpa using hn1.symm, by simp, hi1, ?_⟩
      rw [← hi1]
      assumption

/-- C3 witness: on the stream [idle, TX_DS] the loop returns after two
polls; the first poll classified nothing and the final classification is
TX_DS_ASSERTED. -/
theorem send_poll_first_assertion_witness :
    ∃ pre s post, ([0x00, 0x20] : List Nat) = pre ++ s :: post ∧ 2 = pre.length + 1 ∧
      (∀ x ∈ pre, (check_status_irq x).asserted = NONE_ASSERTED) ∧
      (check_status_irq s).asserted = TX_DS_ASSERTED ∧ TX_DS_ASSERTED ≠ NONE_ASSERTED :=
  send_poll_first_assertion [0x00, 0x20] 2 TX_DS_ASSERTED (by decide)

/-- C4: for every valid configuration (all SPI transfers succeeding),
`nrf_driver_initialise` issues, in order, the CONFIG power-up write
followed by the oscillator wait, then EN_AA, SETUP_AW, SETUP_RETR, RF_CH,
RF_SETUP, FEATURE and DYNPD writes, then flushes both FIFOs — and the
STATUS interrupt-clearing write prepared as `register_list[8]` is never
performed, because the write loop runs `i < 8` over the 9-entry list. -/
theorem initialise_omits_status_clear (c : nrf_manager_t)
    (h : validate_config c = NRF_MNGR_OK) :
    (nrf_driver_initialise c (fun _ => true)).1 =
      [init_event_t.wreg CONFIG 0x0E, init_event_t.sleep_osc,
       init_event_t.wreg EN_AA ENAA_ALL,
       init_event_t.wreg SETUP_AW c.address_width,
       init_event_t.wreg SETUP_RETR (c.retr_count ||| c.retr_delay),
       init_event_t.wreg RF_CH c.channel,
       init_event_t.wreg RF_SETUP (c.data_rate ||| c.power),
       init_event_t.wreg FEATURE ((SET_BIT <<< FEATURE_EN_DPL) ||| (SET_BIT <<< FEATURE_EN_DYN_ACK)),
       init_event_t.wreg DYNPD c.dyn_payloads,
       init_event_t.flush_tx, init_event_t.flush_rx] ∧
    ∀ v, init_event_t.wreg STATUS v ∉ (nrf_driver_initialise c (fun _ => true)).1 := by
  have hev : (nrf_driver_initialise c (fun _ => true)).1 =
      [init_event_t.wreg CONFIG 0x0E, init_event_t.sleep_osc,
       init_event_t.wreg EN_AA ENAA_ALL,
       init_event_t.wreg SETUP_AW c.address_width,
       init_event_t.wreg SETUP_RETR (c.retr_count ||| c.retr_delay),
       init_event_t.wreg RF_CH c.channel,
       init_event_t.wreg RF_SETUP (c.data_rate ||| c.power),
       init_event_t.wreg FEATURE ((SET_BIT <<< FEATURE_EN_DPL) ||| (SET_BIT <<< FEATURE_EN_DYN_ACK)),
       init_event_t.wreg DYNPD c.dyn_payloads,
       init_event_t.flush_tx, init_event_t.flush_rx] := by
    simp [nrf_driver_initialise, h, register_list, init_writes, SPI_MNGR_OK, ERROR,
      CONFIG, EN_AA, SETUP_AW, SETUP_RETR, RF_CH, RF_SETUP, FEATURE, DYNPD]
  refine ⟨hev, fun v => ?_⟩
  rw [hev]
  simp [STATUS, CONFIG, EN_AA, SETUP_AW, SETUP_RETR, RF_CH, RF_SETUP, FEATURE, DYNPD]

/-- C4 witness: the default configuration (channel 110, 5-byte addresses,
1Mbps, 0dBm, ARD 500us, ARC 10, dynamic payloads disabled) is valid, and
initialising with it never writes the STATUS register. -/
theorem initialise_omits_status_clear_witness :
    init_event_t.wreg STATUS STATUS_INTERRUPT_MASK ∉
      (nrf_driver_initialise ⟨AW_5_BYTES, DYNPD_DISABLE, ARD_500US, 0x0A, RF_DR_1MBPS, RF_PWR_0DBM, 110⟩ (fun _ => true)).1 :=
  (initialise_omits_status_clear ⟨AW_5_BYTES, DYNPD_DISABLE, ARD_500US, 0x0A, RF_DR_1MBPS, RF_PWR_0DBM, 110⟩ (by decide)).2
    STATUS_INTERRUPT_MASK

/-- C6: with dynamic payloads enabled, `nrf_driver_read_packet` issues
the R_RX_PL_WID width query first; when the reported width exceeds 32 it
issues FLUSH_RX and returns ERROR without issuing R_RX_PAYLOAD or writing
the caller's buffer; when the reported width is at most 32 it proceeds to
the R_RX_PAYLOAD read and fills the buffer. -/
theorem read_packet_width_guard (dyn w : Nat) (hdyn : dyn ≠ 0) :
    (nrf_driver_read_packet dyn w).opcodes.head? = some R_RX_PL_WID ∧
    (w > MAX_BYTES →
      nrf_driver_read_packet dyn w = ⟨[R_RX_PL_WID, FLUSH_RX], ERROR, false⟩ ∧
      R_RX_PAYLOAD ∉ (nrf_driver_read_packet dyn w).opcodes ∧
      (nrf_driver_read_packet dyn w).wrote_buffer = false) ∧
    (w ≤ MAX_BYTES →
      nrf_driver_read_packet dyn w = ⟨[R_RX_PL_WID, R_RX_PAYLOAD], SPI_MNGR_OK, true⟩) := by
  unfold nrf_driver_read_packet
  rw [if_pos hdyn]
  by_cases hw : w > MAX_BYTES
  · rw [if_pos hw]
    refine ⟨rfl, fun _ => ⟨rfl, ?_, rfl⟩, fun hle => absurd hw (by omega)⟩
    simp [R_RX_PAYLOAD, R_RX_PL_WID, FLUSH_RX]
  · rw [if_neg hw]
    exact ⟨rfl, fun hgt => absurd hgt hw, fun _ => rfl⟩

/-- C6 witness: the spec scenario — dynamic payloads enabled and a
width-query response of 200 — flushes the RX FIFO and returns ERROR
without issuing the payload read. -/
theorem read_packet_width_guard_witness :
    nrf_driver_read_packet DYNPD_ENABLE 200 = ⟨[R_RX_PL_WID, FLUSH_RX], ERROR, false⟩ ∧
    R_RX_PAYLOAD ∉ (nrf_driver_read_packet DYNPD_ENABLE 200).opcodes ∧
    (nrf_driver_read_packet DYNPD_ENABLE 200).wrote_buffer = false :=
  ((read_packet_width_guard DYNPD_ENABLE 200 (by decide)).2.1 (by decide))

/-- C8: `nrf_driver_payload_size` rejects size 0 and size 33 with ERROR
and leaves the whole driver state (hence every payload-width register)
untouched, succeeds for size 32, and accepts exactly the sizes 1..32. -/
theorem payload_size_bounds (st : nrf_driver_t) (pipe size : Nat) :
    (¬(1 ≤ size ∧ size ≤ 32) → nrf_driver_payload_size st pipe size = (st, ERROR)) ∧
    ((1 ≤ size ∧ size ≤ 32) → (nrf_driver_payload_size st pipe size).2 = SPI_MNGR_OK) ∧
    ((size = 0 ∨ size = 33) → nrf_driver_payload_size st pipe size = (st, ERROR)) ∧
    (size = 32 → (nrf_driver_payload_size st pipe size).2 = SPI_MNGR_OK) := by
  have hA : ¬(0 < size ∧ size ≤ MAX_BYTES) → nrf_driver_payload_size st pipe size = (st, ERROR) := by
    intro hv
    simp only [nrf_driver_payload_size, if_neg hv]
    simp [ERROR, NRF_MNGR_OK]
  have hB : (0 < size ∧ size ≤ MAX_BYTES) → (nrf_driver_payload_size st pipe size).2 = SPI_MNGR_OK := by
    intro hv
    simp only [nrf_driver_payload_size, if_pos hv]
    rw [if_true]
    split <;> rfl
  refine ⟨fun hn => hA (by simp only [MAX_BYTES]; omega),
    fun hy => hB (by simp only [MAX_BYTES]; omega),
    fun h0 => hA (by simp only [MAX_BYTES]; omega),
    fun h32 => hB (by simp only [MAX_BYTES]; omega)⟩

/-- C8 witness: at pipe 2, size 33 is rejected with the driver state
untouched, size 0 likewise, and size 32 is accepted. -/
theorem payload_size_bounds_witness :
    nrf_driver_payload_size init_state 2 33 = (init_state, ERROR) ∧
    nrf_driver_payload_size init_state 2 0 = (init_state, ERROR) ∧
    (nrf_driver_payload_size init_state 2 32).2 = SPI_MNGR_OK :=
  ⟨(payload_size_bounds init_state 2 33).2.2.1 (Or.inr rfl),
   (payload_size_bounds init_state 2 0).2.2.1 (Or.inl rfl),
   (payload_size_bounds init_state 2 32).2.2.2 rfl⟩

/-- C10: `nrf_driver_rf_channel` on an in-range channel updates the
cached configuration's channel (and the RF_CH register) exactly when the
register-write transfer succeeds: a failed write returns ERROR and leaves
the whole driver state — cache included — unchanged, and an out-of-range
channel touches neither register nor cache. -/
theorem rf_channel_cache_atomic (st : nrf_driver_t) (channel : Nat) (writeOk : Bool) :
    ((2 ≤ channel ∧ channel ≤ 125) →
       (writeOk = true →
          (nrf_driver_rf_channel st channel writeOk).1.user_config.channel = channel ∧
          (nrf_driver_rf_channel st channel writeOk).1.regs RF_CH = [channel] ∧
          (nrf_driver_rf_channel st channel writeOk).2 = SPI_MNGR_OK) ∧
       (writeOk = false →
          nrf_driver_rf_channel st channel writeOk = (st, ERROR))) ∧
    (¬(2 ≤ channel ∧ channel ≤ 125) →
       nrf_driver_rf_channel st channel writeOk = (st, ERROR)) := by
  constructor
  · intro hc
    constructor
    · intro hok
      subst hok
      simp [nrf_driver_rf_channel, if_pos hc, w_reg, SPI_MNGR_OK, NRF_MNGR_OK]
    · intro hko
      subst hko
      simp only [nrf_driver_rf_channel, if_pos hc]
      simp [ERROR, SPI_MNGR_OK, NRF_MNGR_OK]
  · intro hc
    simp only [nrf_driver_rf_channel, if_neg hc]
    simp [ERROR, NRF_MNGR_OK]

/-- C10 witness: channel 76 with a successful write updates register and
cache; channel 76 with a failed write leaves the state untouched. -/
theorem rf_channel_cache_atomic_witness :
    ((nrf_driver_rf_channel init_state 76 true).1.user_config.channel = 76 ∧
     (nrf_driver_rf_channel init_state 76 true).1.regs RF_CH = [76] ∧
     (nrf_driver_rf_channel init_state 76 true).2 = SPI_MNGR_OK) ∧
    nrf_driver_rf_channel init_state 76 false = (init_state, ERROR) :=
  ⟨((rf_channel_cache_atomic init_state 76 true).1 (by omega)).1 rfl,
   ((rf_channel_cache_atomic init_state 76 false).1 (by omega)).2 rfl⟩

/-- Register content written by `nrf_driver_rx_destination` to the target
pipe's address register: the full configured width for pipes 0-1, one
byte for pipes 2-5 (the EN_RXADDR update touches a different register). -/
theorem rx_destination_reg (st : nrf_driver_t) (pipe : Nat) (buffer : List Nat)
    (h6 : pipe < ALL_DATA_PIPES) :
    (nrf_driver_rx_destination st pipe buffer).1.regs (rx_addr_reg pipe) =
      (if pipe < 2 then buffer.take st.address_width_bytes else buffer.take ONE_BYTE) := by
  have hne : ¬rx_addr_reg pipe = EN_RXADDR := by
    simp only [rx_addr_reg, RX_ADDR_P0, EN_RXADDR]
    omega
  simp only [nrf_driver_rx_destination, if_pos h6]
  split <;> split <;> split <;> simp_all [w_reg]

/-- C7: for every pipe in {2,3,4,5}, `nrf_driver_rx_destination` writes
exactly one data byte — the buffer's first byte — to that pipe's address
register regardless of the supplied buffer's length, while pipes 0 and 1
receive the full configured address width. -/
theorem rx_destination_pipe_width (st : nrf_driver_t) (pipe : Nat) (buffer : List Nat)
    (h2 : 2 ≤ pipe) (h5 : pipe ≤ 5) :
    (nrf_driver_rx_destination st pipe buffer).1.regs (rx_addr_reg pipe) = buffer.take 1 ∧
    (buffer ≠ [] →
      ((nrf_driver_rx_destination st pipe buffer).1.regs (rx_addr_reg pipe)).length = 1) ∧
    (∀ p < 2, (nrf_driver_rx_destination st p buffer).1.regs (rx_addr_reg p) =
      buffer.take st.address_width_bytes) := by
  have h6 : pipe < ALL_DATA_PIPES := by
    simp only [ALL_DATA_PIPES]
    omega
  have hr := rx_destination_reg st pipe buffer h6
  rw [if_neg (by omega)] at hr
  refine ⟨hr, fun hb => ?_, fun p hp => ?_⟩
  · rw [hr]
    have hpos := List.length_pos.mpr hb
    simp only [ONE_BYTE, List.length_take]
    omega
  · have hp6 : p < ALL_DATA_PIPES := by
      simp only [ALL_DATA_PIPES]
      omega
    have := rx_destination_reg st p buffer hp6
    rwa [if_pos hp] at this

/-- C7 witness: a 5-byte buffer assigned to pipe 3 leaves exactly its
first byte in RX_ADDR_P3. -/
theorem rx_destination_pipe_width_witness :
    (nrf_driver_rx_destination init_state 3 [7, 8, 9, 10, 11]).1.regs (rx_addr_reg 3)
        = ([7, 8, 9, 10, 11] : List Nat).take 1 ∧
    (([7, 8, 9, 10, 11] : List Nat) ≠ [] →
      ((nrf_driver_rx_destination init_state 3 [7, 8, 9, 10, 11]).1.regs (rx_addr_reg 3)).length = 1) ∧
    (∀ p < 2, (nrf_driver_rx_destination init_state p [7, 8, 9, 10, 11]).1.regs (rx_addr_reg p) =
      ([7, 8, 9, 10, 11] : List Nat).take init_state.address_width_bytes) :=
  rx_destination_pipe_width init_state 3 [7, 8, 9, 10, 11] (by omega) (by omega)

/-! ### Pipe-0 cache preservation (claim C1) -/

/-- The pipe-0 cache fields — assigned flag, cached address, address
width — agree between two driver states. -/
def cache_eq (a b : nrf_driver_t) : Prop :=
  a.is_rx_addr_p0 = b.is_rx_addr_p0 ∧ a.rx_addr_p0 = b.rx_addr_p0 ∧
    a.address_width_bytes = b.address_width_bytes

theorem cache_eq_trans {a b c : nrf_driver_t} (h1 : cache_eq a b) (h2 : cache_eq b c) :
    cache_eq a c :=
  ⟨h1.1.trans h2.1, h1.2.1.trans h2.2.1, h1.2.2.trans h2.2.2⟩

theorem foldl_wreg_status_cache (l : List Nat) (st : nrf_driver_t) :
    cache_eq (l.foldl (fun acc v => w_reg acc STATUS [v]) st) st := by
  induction l generalizing st with
  | nil => exact ⟨rfl, rfl, rfl⟩
  | cons x xs ih => exact ih (w_reg st STATUS [x])

theorem apply_irq_writes_cache (st : nrf_driver_t) (s : Nat) :
    cache_eq (apply_irq_writes st s) st :=
  foldl_wreg_status_cache _ st

theorem apply_polls_cache (l : List Nat) (st : nrf_driver_t) :
    cache_eq (apply_polls st l) st := by
  induction l generalizing st with
  | nil => exact ⟨rfl, rfl, rfl⟩
  | cons s rest ih =>
    simp only [apply_polls]
    split
    · exact cache_eq_trans (ih (apply_irq_writes st s)) (apply_irq_writes_cache st s)
    · exact apply_irq_writes_cache st s

theorem standby_mode_cache (st : nrf_driver_t) :
    cache_eq (nrf_driver_standby_mode st) st := by
  unfold nrf_driver_standby_mode
  split
  · exact ⟨rfl, rfl, rfl⟩
  · exact ⟨rfl, rfl, rfl⟩

theorem send_state_cache (st : nrf_driver_t) (spiOk : Bool) (statuses : List Nat) :
    cache_eq (send_packet_state st spiOk statuses) st := by
  have hs := standby_mode_cache st
  unfold send_packet_state
  split
  · exact cache_eq_trans (apply_polls_cache statuses _) hs
  · split
    · exact hs
    · exact cache_eq_trans (apply_irq_writes_cache _ _) hs

theorem apply_tx_op_cache (st : nrf_driver_t) (op : tx_op_t) :
    cache_eq (apply_tx_op st op) st := by
  cases op with
  | send spiOk statuses => exact send_state_cache st spiOk statuses
  | tx_dest buffer => exact ⟨rfl, rfl, rfl⟩

theorem foldl_tx_ops_cache (ops : List tx_op_t) (st : nrf_driver_t) :
    cache_eq (ops.foldl apply_tx_op st) st := by
  induction ops generalizing st with
  | nil => exact ⟨rfl, rfl, rfl⟩
  | cons op rest ih =>
    exact cache_eq_trans (ih (apply_tx_op st op)) (apply_tx_op_cache st op)

/-- Calling `nrf_driver_rx_destination` on pipe 0 sets the cache flag, caches the
first `address_width_bytes` bytes of the buffer, and leaves the address
width unchanged. -/
theorem rx_destination_p0_cache (st : nrf_driver_t) (buffer : List Nat) :
    (nrf_driver_rx_destination st 0 buffer).1.is_rx_addr_p0 = true ∧
    (nrf_driver_rx_destination st 0 buffer).1.rx_addr_p0 =
      buffer.take st.address_width_bytes ++ st.rx_addr_p0.drop st.address_width_bytes ∧
    (nrf_driver_rx_destination st 0 buffer).1.address_width_bytes = st.address_width_bytes := by
  simp only [nrf_driver_rx_destination]
  norm_num [ALL_DATA_PIPES]
  split <;> exact ⟨rfl, rfl, rfl⟩

/-- Entering receive mode via `nrf_driver_receiver_mode` rewrites the RX_ADDR_P0 register with the
first `address_width_bytes` bytes of the cached pipe-0 address whenever
the cache flag is set. -/
theorem receiver_mode_restores (st : nrf_driver_t) (h : st.is_rx_addr_p0 = true) :
    (nrf_driver_receiver_mode st).1.regs RX_ADDR_P0 =
      st.rx_addr_p0.take st.address_width_bytes := by
  have hne : ¬(RX_ADDR_P0 = CONFIG) := by decide
  unfold nrf_driver_receiver_mode
  by_cases hc : (r_reg_byte st CONFIG) >>> CONFIG_PRIM_RX % 2 = SET_BIT <;>
    simp [hc, w_reg, h, hne]

/-- C1: pipe-0 address round-trip — after assigning address A to pipe 0
via `nrf_driver_rx_destination`, any sequence of subsequent transmit
operations (sends, and transmit-destination writes that overwrite the
pipe-0 address register for auto-acknowledgment) followed by
`nrf_driver_receiver_mode` leaves the pipe-0 address register holding A
again: the driver caches the address with a pipe-0-assigned flag on
assignment and restores it whenever receive mode is entered. -/
theorem pipe0_address_roundtrip (st : nrf_driver_t) (A : List Nat) (ops : List tx_op_t)
    (h : st.address_width_bytes ≤ A.length) :
    (nrf_driver_receiver_mode
        (ops.foldl apply_tx_op (nrf_driver_rx_destination st 0 A).1)).1.regs RX_ADDR_P0
      = A.take st.address_width_bytes := by
  obtain ⟨c1, c2, c3⟩ := rx_destination_p0_cache st A
  obtain ⟨d1, d2, d3⟩ := foldl_tx_ops_cache ops (nrf_driver_rx_destination st 0 A).1
  rw [receiver_mode_restores _ (by rw [d1, c1])]
  rw [d2, c2, d3, c3]
  rw [List.take_append_of_le_length (by simp only [List.length_take]; omega)]
  rw [List.take_take]
  simp

/-- C1 witness: assigning [1,2,3,4,5] to pipe 0, then a transmit-address
overwrite and a send that exhausts its retries, then entering receive
mode, leaves RX_ADDR_P0 holding [1,2,3,4,5]. -/
theorem pipe0_address_roundtrip_witness :
    (nrf_driver_receiver_mode
        (([tx_op_t.tx_dest [9, 9, 9, 9, 9], tx_op_t.send true [0x00, 0x10]]).foldl apply_tx_op
          (nrf_driver_rx_destination init_state 0 [1, 2, 3, 4, 5]).1)).1.regs RX_ADDR_P0
      = ([1, 2, 3, 4, 5] : List Nat).take init_state.address_width_bytes :=
  pipe0_address_roundtrip init_state [1, 2, 3, 4, 5]
    [tx_op_t.tx_dest [9, 9, 9, 9, 9], tx_op_t.send true [0x00, 0x10]] (by decide)

end Nrf24
